import Mathlib

/-
Verification of the Location & Comparable Resolution Engine of
ai-marketplace-monitor (src/ai_marketplace_monitor/mysql_compare.py).

The Python module is shallowly embedded: pure text-extraction helpers become
Lean functions on String / List Char; the MySQL store, the geocoding HTTP
service and the persistent cache become explicit oracles and state records;
fallible paths return Except / Option.  Machine floats are modelled by exact
rationals (the arithmetic performed by the source on prices is a mean and one
percentage, stated over the reals in the specification).
-/

namespace AMM

/-! ## Character classes (Python `re`, ASCII range of the inputs) -/

/-- Python regex word character: [a-zA-Z0-9_]. -/
def isWordChar (c : Char) : Bool :=
  c.isAlpha || c.isDigit || c = '_'

/-- Python regex whitespace class for ASCII text. -/
def isPySpace (c : Char) : Bool :=
  c = ' ' || c = '\t' || c = '\n' || c = '\x0d' || c = '\x0b' || c = '\x0c'

def isDigitOrComma (c : Char) : Bool :=
  c.isDigit || c = ','

/-- Python str.lower() on the ASCII range of these inputs. -/
def toLowerChar (c : Char) : Char :=
  if 'A' ≤ c && c ≤ 'Z' then Char.ofNat (c.toNat + 32) else c

def pyLower (s : String) : String := ⟨s.data.map toLowerChar⟩

/-! ## Basic string helpers mirroring Python str methods -/

/-- Python str.strip() (both ends, whitespace). -/
def pyStripChars (p : Char → Bool) (cs : List Char) : List Char :=
  ((cs.dropWhile p).reverse.dropWhile p).reverse

def pyStrip (s : String) : String :=
  ⟨pyStripChars isPySpace s.data⟩

/-- Python str.strip(" ,"). -/
def pyStripSpaceComma (s : String) : String :=
  ⟨pyStripChars (fun c => c = ' ' || c = ',') s.data⟩

/-- Python s[:n] for a nonnegative constant n (character count). -/
def pyTake (n : Nat) (s : String) : String :=
  ⟨s.data.take n⟩

/-- Python l[:n] for an int n (negative n cuts from the end). -/
def pySlice (n : Int) (l : List α) : List α :=
  if 0 ≤ n then l.take n.toNat else l.take (l.length - (-n).toNat)

/-- Substring test (Python `in`). -/
def hasSubstr (needle : List Char) : List Char → Bool
  | [] => needle.isPrefixOf []
  | c :: t => needle.isPrefixOf (c :: t) || hasSubstr needle t

/-- Python re.sub(r"\s+", " ", s): collapse each whitespace run to one space
(pending records an open whitespace run). -/
def collapseWsAux : Bool → List Char → List Char
  | pending, [] => if pending then [' '] else []
  | pending, c :: cs =>
    if isPySpace c then collapseWsAux true cs
    else if pending then ' ' :: c :: collapseWsAux false cs
    else c :: collapseWsAux false cs

def collapseWs (s : String) : String := ⟨collapseWsAux false s.data⟩

/-! ## Digit-string parsing (Python int()/float() on matched groups) -/

def natOfDigits (cs : List Char) : Nat :=
  cs.foldl (fun a c => a * 10 + (c.toNat - '0'.toNat)) 0

/-- Value of "intpart[.fracpart]" as an exact rational. -/
def ratOfDecimalChars (cs : List Char) : ℚ :=
  let intPart := cs.takeWhile (fun c => c ≠ '.')
  let rest := cs.dropWhile (fun c => c ≠ '.')
  let fracPart := rest.drop 1
  if fracPart = [] then (natOfDigits intPart : ℚ)
  else (natOfDigits intPart : ℚ) + (natOfDigits fracPart : ℚ) / (10 : ℚ) ^ fracPart.length

/-! ## `_parse_price`: first numeric token of `re.findall(r"[\d,]+(?:\.\d+)?", s)`
with commas removed; skips tokens that clean to the empty string. -/

def firstNumericToken : List Char → Option ℚ
  | [] => none
  | c :: cs =>
    if isDigitOrComma c then
      -- the match starts at c, so the [\d,]+ run is c followed by the run in cs
      let run := c :: cs.takeWhile isDigitOrComma
      let rest := cs.dropWhile isDigitOrComma
      let frac : List Char :=
        match rest with
        | '.' :: d :: _ =>
          if d.isDigit then '.' :: (rest.drop 1).takeWhile Char.isDigit else []
        | _ => []
      let cleaned := (run ++ frac).filter (fun ch => ch ≠ ',')
      if cleaned ≠ [] then some (ratOfDecimalChars cleaned)
      else
        -- cleaned empty means the token was all commas with no fraction part;
        -- every position inside that run skips the same way, so resuming at
        -- the next char is the same as resuming after the token
        firstNumericToken cs
    else firstNumericToken cs

/-- `_parse_price`: extract numeric price from a listing price string
(first number found; absent for empty or the "**unspecified**" placeholder). -/
def _parse_price (s : String) : Option ℚ :=
  if s = "" || s = "**unspecified**" then none
  else firstNumericToken s.data

/-! ## Listing (external entity; missing fields are the empty string, matching
the pervasive `x or ""` of the source) -/

structure Listing where
  id : String := ""
  title : String := ""
  description : String := ""
  price : String := ""
  location : String := ""
  post_url : String := ""
deriving DecidableEq, Repr

/-! ## Zip regex: re.search(r"\b(\d{5})(?:-\d{4})?\b", loc), group(1).
The group is five digits with a word boundary on each side; the optional
-dddd extension never changes the group, and a '-' after the digits is
itself a boundary, so the match condition is: five digits, no word char
immediately before or after. -/

def zipHere (prevWord : Bool) : List Char → Option String
  | d1 :: d2 :: d3 :: d4 :: d5 :: rest =>
    if !prevWord && d1.isDigit && d2.isDigit && d3.isDigit && d4.isDigit && d5.isDigit
        && (match rest with | [] => true | r :: _ => !isWordChar r) then
      some ⟨[d1, d2, d3, d4, d5]⟩
    else none
  | _ => none

def findZipAux (prevWord : Bool) : List Char → Option String
  | [] => none
  | c :: cs =>
    match zipHere prevWord (c :: cs) with
    | some z => some z
    | none => findZipAux (isWordChar c) cs

def findZipCode (s : String) : Option String := findZipAux false s.data

/-! ## `_parse_location_parts`: re.split(r",|\s{2,}", loc), strip parts, drop
empties; state = last part when it is exactly two letters, city = first part
(or the sole part when no zip). -/

/-- Splitter state machine: cur is the current token (reversed), ws the
pending run of consecutive whitespace.  A run of ≥ 2 whitespace chars is a
delimiter (greedy, matched at its first char); a single one is literal. -/
def splitLocAux (cur ws : List Char) : List Char → List (List Char)
  | [] => if 2 ≤ ws.length then [cur.reverse, []] else [(ws ++ cur).reverse]
  | c :: cs =>
    if isPySpace c then splitLocAux cur (c :: ws) cs
    else if 2 ≤ ws.length then
      if c = ',' then cur.reverse :: [] :: splitLocAux [] [] cs
      else cur.reverse :: splitLocAux [c] [] cs
    else
      if c = ',' then (ws ++ cur).reverse :: splitLocAux [] [] cs
      else splitLocAux (c :: (ws ++ cur)) [] cs

def _parse_location_parts (location : String) : Option String × Option String × Option String :=
  let loc := pyStrip location
  let zip := findZipCode loc
  let parts := ((splitLocAux [] [] loc.data).map (pyStripChars isPySpace)).filter (fun t => t ≠ [])
  match parts with
  | [] => (none, none, zip)
  | p :: ps =>
    if 2 ≤ (p :: ps).length then
      let lastTok := ((p :: ps).getLast?).getD []
      if lastTok.length = 2 && lastTok.all Char.isAlpha then (some ⟨p⟩, some ⟨lastTok⟩, zip)
      else (none, none, zip)
    else if zip = none then (some ⟨p⟩, none, zip)
    else (none, none, zip)

/-! ## `_parse_beds_baths_year` -/

/-- re.search(r"(\d+)\s*bed", text): at each position, a maximal digit run,
optional whitespace, then the literal "bed" (a shorter digit run can never
succeed where the maximal one fails, since the next char is then a digit). -/
def bedsSearch : List Char → Option Int
  | [] => none
  | c :: cs =>
    if c.isDigit then
      let digits := c :: cs.takeWhile Char.isDigit
      let after := cs.dropWhile Char.isDigit
      if "bed".data.isPrefixOf (after.dropWhile isPySpace) then some (natOfDigits digits : Int)
      else bedsSearch cs
    else bedsSearch cs

/-- re.search(r"(\d+(?:\.\d+)?)\s*bath", text). -/
def bathsSearch : List Char → Option ℚ
  | [] => none
  | c :: cs =>
    if c.isDigit then
      let digits := c :: cs.takeWhile Char.isDigit
      let after := cs.dropWhile Char.isDigit
      let groupAndRest : List Char × List Char :=
        match after with
        | '.' :: d :: _ =>
          if d.isDigit then
            (digits ++ '.' :: (after.drop 1).takeWhile Char.isDigit,
             (after.drop 1).dropWhile Char.isDigit)
          else (digits, after)
        | _ => (digits, after)
      if "bath".data.isPrefixOf (groupAndRest.2.dropWhile isPySpace) then
        some (ratOfDecimalChars groupAndRest.1)
      else bathsSearch cs
    else bathsSearch cs

/-- After one of the keywords: \s*[:\s]* (i.e. any run of whitespace/colons),
then exactly four digits (\d{4} has no trailing boundary). -/
def yearAfterKw (rest : List Char) : Option Int :=
  let r := rest.dropWhile (fun c => isPySpace c || c = ':')
  match r with
  | a :: b :: c :: d :: _ =>
    if a.isDigit && b.isDigit && c.isDigit && d.isDigit then
      some (natOfDigits [a, b, c, d] : Int)
    else none
  | _ => none

/-- re.search(r"(?:built|year|yr)\s*[:\s]*(\d{4})", text). -/
def yearKwSearch : List Char → Option Int
  | [] => none
  | c :: cs =>
    let restOfKw : Option (List Char) :=
      if "built".data.isPrefixOf (c :: cs) then some ((c :: cs).drop 5)
      else if "year".data.isPrefixOf (c :: cs) then some ((c :: cs).drop 4)
      else if "yr".data.isPrefixOf (c :: cs) then some ((c :: cs).drop 2)
      else none
    match restOfKw with
    | some rest =>
      match yearAfterKw rest with
      | some y => some y
      | none => yearKwSearch cs
    | none => yearKwSearch cs

/-- re.search(r"\b(19\d{2}|20[0-2]\d)\b", text): a standalone four-digit
number 1900-1999 or 2000-2029. -/
def bareYearAt (prevWord : Bool) : List Char → Option Int
  | a :: b :: c :: d :: rest =>
    if prevWord then none
    else if a.isDigit && b.isDigit && c.isDigit && d.isDigit
        && ((a = '1' && b = '9') || (a = '2' && b = '0' && (c = '0' || c = '1' || c = '2')))
        && (match rest with | [] => true | r :: _ => !isWordChar r) then
      some (natOfDigits [a, b, c, d] : Int)
    else none
  | _ => none

def bareYearSearch (prevWord : Bool) : List Char → Option Int
  | [] => none
  | c :: cs =>
    match bareYearAt prevWord (c :: cs) with
    | some y => some y
    | none => bareYearSearch (isWordChar c) cs

/-- `_parse_beds_baths_year`: beds, baths, year_built extracted from
lowercased title + " " + description. -/
def _parse_beds_baths_year (l : Listing) : Option Int × Option ℚ × Option Int :=
  let text := pyLower (l.title ++ " " ++ l.description)
  (bedsSearch text.data, bathsSearch text.data,
    match yearKwSearch text.data with
    | some y => some y
    | none => bareYearSearch false text.data)

/-! ## `_safe_table` -/

/-- Python re.match(r"^[a-zA-Z0-9_]+$", s) as a boolean: one or more word
characters; the $ anchor also matches just before a single trailing
newline, which re.match therefore accepts. -/
def reMatchIdent (s : String) : Bool :=
  let cs := if s.data.getLast? = some '\n' then s.data.dropLast else s.data
  cs ≠ [] && cs.all isWordChar

/-- `_safe_table(name)`: bool(name and re.match(r"^[a-zA-Z0-9_]+$", name)). -/
def _safe_table (name : String) : Bool :=
  name ≠ "" && reMatchIdent name

/-! ## `_lot_rent_in_listing` -/

def searchPos (p : List Char → Bool) : List Char → Bool
  | [] => p []
  | c :: cs => p (c :: cs) || searchPos p cs

/-- Consume k1, then \s+ (at least one whitespace, maximal), then k2;
return the remaining suffix. -/
def afterKwWsKw (k1 k2 : List Char) (cs : List Char) : Option (List Char) :=
  if k1.isPrefixOf cs then
    match cs.drop k1.length with
    | c :: r =>
      if isPySpace c then
        let r1 := (c :: r).dropWhile isPySpace
        if k2.isPrefixOf r1 then some (r1.drop k2.length) else none
      else none
    | [] => none
  else none

/-- k1, \s+, ':', \s*, '$' (the "lot : $" / "space : $" alternatives). -/
def kwWsColonDollar (k1 : List Char) (cs : List Char) : Bool :=
  if k1.isPrefixOf cs then
    match cs.drop k1.length with
    | c :: r =>
      if isPySpace c then
        match (c :: r).dropWhile isPySpace with
        | ':' :: r2 =>
          match r2.dropWhile isPySpace with
          | '$' :: _ => true
          | _ => false
        | _ => false
      else false
    | [] => false
  else false

/-- First gate: re.search(r"lot\s+rent|space\s+rent|lot\s+:\s*\$|space\s+:\s*\$"). -/
def rentKeywordHere (cs : List Char) : Bool :=
  (afterKwWsKw "lot".data "rent".data cs).isSome
    || (afterKwWsKw "space".data "rent".data cs).isSome
    || kwWsColonDollar "lot".data cs
    || kwWsColonDollar "space".data cs

/-- Tail \s*[:\s]*\$?\s*[\d,]+ after a rent keyword. -/
def rentAmountTail (r : List Char) : Bool :=
  let r1 := r.dropWhile (fun c => isPySpace c || c = ':')
  let r2 := match r1 with | '$' :: t => t | _ => r1
  match r2.dropWhile isPySpace with
  | c :: _ => isDigitOrComma c
  | [] => false

/-- re.search(r"(?:lot\s+rent|space\s+rent|rent)\s*[:\s]*\$?\s*[\d,]+"):
all three heads end right after "rent", so the tail test is shared. -/
def rentAmountHere (cs : List Char) : Bool :=
  match afterKwWsKw "lot".data "rent".data cs with
  | some r => rentAmountTail r
  | none =>
    match afterKwWsKw "space".data "rent".data cs with
    | some r => rentAmountTail r
    | none =>
      if "rent".data.isPrefixOf cs then rentAmountTail (cs.drop 4) else false

/-- Required suffix \s+lot|\s+space|\s+rent. -/
def reqRentWordSuffix (r : List Char) : Bool :=
  match r with
  | c :: _ =>
    isPySpace c &&
      (let t := r.dropWhile isPySpace
       "lot".data.isPrefixOf t || "space".data.isPrefixOf t || "rent".data.isPrefixOf t)
  | [] => false

/-- Optional group \s*/\s*mo. -/
def afterSlashMo (r : List Char) : Option (List Char) :=
  match r.dropWhile isPySpace with
  | '/' :: t =>
    match t.dropWhile isPySpace with
    | 'm' :: 'o' :: t2 => some t2
    | _ => none
  | _ => none

/-- Optional group \s*per\s*month. -/
def afterPerMonth (r : List Char) : Option (List Char) :=
  let t := r.dropWhile isPySpace
  if "per".data.isPrefixOf t then
    let t2 := (t.drop 3).dropWhile isPySpace
    if "month".data.isPrefixOf t2 then some (t2.drop 5) else none
  else none

/-- re.search(r"\$[\d,]+(?:\s*/\s*mo|\s*per\s*month)?(?:\s+lot|\s+space|\s+rent)"). -/
def dollarAmountContextHere (cs : List Char) : Bool :=
  match cs with
  | '$' :: r =>
    (match r with
     | c :: _ =>
       if isDigitOrComma c then
         let rest := r.dropWhile isDigitOrComma
         reqRentWordSuffix rest
           || (match afterSlashMo rest with
               | some t => reqRentWordSuffix t
               | none => false)
           || (match afterPerMonth rest with
               | some t => reqRentWordSuffix t
               | none => false)
       else false
     | [] => false)
  | _ => false

/-- `_lot_rent_in_listing`: title or description mentions lot/space rent
together with a dollar amount. -/
def _lot_rent_in_listing (l : Listing) : Bool :=
  let text := (pyLower (l.title ++ " " ++ l.description)).data
  if !searchPos rentKeywordHere text then false
  else searchPos rentAmountHere text || searchPos dollarAmountContextHere text

/-! ## Row values.  A driver row is a mapping column name → value; values are
numbers, strings or SQL NULL (None).  Numeric driver values are modelled as
exact rationals. -/

inductive Value where
  | num (q : ℚ)
  | str (s : String)
  | null
deriving DecidableEq, Repr

abbrev Row : Type := List (String × Value)

def rowGet (r : Row) (k : String) : Option Value :=
  (r.find? (fun kv => kv.1 == k)).map (·.2)

/-- Python str(v) as used in f-strings (None renders as "None"; the rendering
of driver numeric objects is abstracted to a plain decimal). -/
def pyStrValue : Value → String
  | .num q => if q.den = 1 then toString q.num else toString q
  | .str s => s
  | .null => "None"

/-- Value rendering inside str(dict): strings carry repr quotes. -/
def reprValue : Value → String
  | .num q => if q.den = 1 then toString q.num else toString q
  | .str s => "'" ++ s ++ "'"
  | .null => "None"

/-- Python str(row_dict). -/
def pyStrRow (r : Row) : String :=
  "\x7b" ++ String.intercalate ", " (r.map (fun kv => "'" ++ kv.1 ++ "': " ++ reprValue kv.2)) ++ "\x7d"

/-- Python float() applied to a row value: numbers pass through, None raises
TypeError, strings parse as a (sign, digits, optional point) literal or raise
ValueError. -/
def pyFloatOfString (s : String) : Option ℚ :=
  let t := pyStripChars isPySpace s.data
  let su : ℚ × List Char :=
    match t with
    | '-' :: r => (-1, r)
    | '+' :: r => (1, r)
    | r => (1, r)
  if su.2 ≠ [] && su.2.all (fun c => c.isDigit || c = '.')
      && (su.2.filter (fun c => c = '.')).length ≤ 1 && su.2 ≠ ['.'] then
    some (su.1 * ratOfDecimalChars su.2)
  else none

def pyFloat : Value → Except Unit ℚ
  | .num q => .ok q
  | .null => .error ()
  | .str s => match pyFloatOfString s with | some q => .ok q | none => .error ()

/-! ## Python "%.0f" rounding (round half to even) and "{:,}" grouping -/

def pyRoundHalfEven (q : ℚ) : ℤ :=
  let n := ⌊q⌋
  let frac := q - (n : ℚ)
  if frac < 1/2 then n
  else if 1/2 < frac then n + 1
  else if n % 2 = 0 then n else n + 1

def chunk3 : List Char → List (List Char)
  | [] => []
  | a :: b :: c :: rest => [a, b, c] :: chunk3 rest
  | l => [l]

/-- f"{n:,}" for an integer: thousands separated by commas. -/
def pyMoneyInt (n : ℤ) : String :=
  let ds := (toString n.natAbs).data
  (if n < 0 then "-" else "") ++ ⟨(List.intercalate [','] (chunk3 ds.reverse)).reverse⟩

/-! ## ComparisonResult and configuration -/

structure ComparisonResult where
  summary : String
  rows : List Row := []
  raw_text : String := ""
  concise_price_line : String := ""
  sales_scope : Option String := none
  average_lot_rent_line : String := ""
deriving DecidableEq, Repr

/-- MySQLConfig, defaults as in the source.  Connection parameters (host,
port, user, password, database, connection_timeout) only feed the connection
oracle and are not carried here. -/
structure MySQLConfig where
  enabled : Bool := true
  comparison_query : Option String := none
  comparison_table : Option String := none
  title_column : String := "title"
  price_column : Option String := some "price"
  max_rows : Int := 10
  use_sales_comps : Bool := false
  sales_max_rows : Int := 10
  sales_table : String := "sales"
  properties_table : String := "properties"
  zip_county_table : String := "zip_county"
  counties_table : String := "counties"
  year_tolerance : Int := 5
  insert_into_fb : Bool := true
  fb_listings_table : String := "fb_listings"
  fb_listing_history_table : Option String := none
  geocode_fallback : Bool := true
  geocode_geoapify_api_key : Option String := none
  geocode_rate_limit_seconds : ℚ := 1
  lot_rent_table : Option String := none
  lot_rent_zip_column : String := "zip"
  lot_rent_county_column : String := "county_id"
  lot_rent_region_column : String := "region_id"
  lot_rent_value_column : String := "avg_rent"

/-- Python truthiness of an Optional[str]. -/
def optStrTruthy : Option String → Bool
  | some s => s ≠ ""
  | none => false

/-! ## Store and network oracles.

Each store lookup of the source is one oracle field; Except.error stands for
a raised driver exception, .ok none for "no row" (or a NULL that fails int()).
The sales/builtin/custom/lot-rent queries are keyed by the structured query
the source builds, holding exactly the identifiers it interpolates and the
values it binds. -/

inductive ScopeKey where
  | zip (z : String)
  | county (c : Int)
  | region (r : Int)
deriving DecidableEq, Repr

def scopeName : ScopeKey → String
  | .zip _ => "zip"
  | .county _ => "county"
  | .region _ => "region"

inductive AttrFilter where
  | beds (n : Int)
  | baths (q : ℚ)
  | yearBetween (lo hi : Int)
deriving DecidableEq, Repr

structure BuiltinQuery where
  table : String
  titleCol : String
  priceCol : Option String
  titleLike : String
  maxPrice : Option ℚ
  limit : Int
deriving DecidableEq, Repr

inductive LotKey where
  | zipKey (z : String)
  | intKey (n : Int)
deriving DecidableEq, Repr

def lotKeyRender : LotKey → String
  | .zipKey z => z
  | .intKey n => toString n

structure LotQuery where
  table : String
  valCol : String
  whereCol : String
  key : LotKey
  scope : String
deriving DecidableEq, Repr

structure Db where
  connectOk : Bool
  zipCountyLookup : String → Except Unit (Option Int)
  propCountyByZip : String → Except Unit (Option Int)
  countyRegionLookup : Int → Except Unit (Option Int)
  propRegionByCounty : Int → Except Unit (Option Int)
  salesQuery : ScopeKey → List AttrFilter → Int → Except Unit (List Row)
  builtinQueryExec : BuiltinQuery → Except Unit (List Row)
  customQueryExec : String → Except Unit (List Row)
  lotRentLookup : LotQuery → Except Unit (Option Value)
  hasPostedDate : Bool
  hasUpdatedAt : Bool
  insertOk : Bool

/-- The geocoder as seen by `_resolve_location`: the value returned by
`_geocode_city_state_to_zip` (whose own cache/rate-limit behaviour is
verified separately on its stateful embedding below). -/
abbrev GeoFun : Type := String → String → Option String

/-! ## `_resolve_location` -/

structure ResolvedLocation where
  zip : Option String
  county_id : Option Int
  region_id : Option Int
  /-- instruments whether `_geocode_city_state_to_zip` was invoked -/
  geocoderCalled : Bool
deriving DecidableEq, Repr

def lookupVal : Except Unit (Option Int) → Option Int
  | .ok v => v
  | .error _ => none

/-- County: zip_county table first, else any property row with that zip. -/
def resolveZipCounty (cfg : MySQLConfig) (db : Db) (z : String) : Option Int :=
  match lookupVal (db.zipCountyLookup z) with
  | some c => some c
  | none =>
    if _safe_table cfg.properties_table then lookupVal (db.propCountyByZip z) else none

/-- Region: counties table first, else any property row with that county. -/
def resolveCountyRegion (cfg : MySQLConfig) (db : Db) (c : Int) : Option Int :=
  match lookupVal (db.countyRegionLookup c) with
  | some g => some g
  | none =>
    if _safe_table cfg.properties_table then lookupVal (db.propRegionByCounty c) else none

def resolveFromZip (cfg : MySQLConfig) (db : Db) (z : String) (called : Bool) : ResolvedLocation :=
  if !_safe_table cfg.zip_county_table || !_safe_table cfg.counties_table then
    ⟨some z, none, none, called⟩
  else
    match resolveZipCounty cfg db z with
    | none => ⟨some z, none, none, called⟩
    | some c => ⟨some z, some c, resolveCountyRegion cfg db c, called⟩

/-- `_resolve_location`: zip from regex in the location text, else the
geocoder when city or state parsed and geocode_fallback is on; then
county and region lookups. -/
def _resolve_location (cfg : MySQLConfig) (db : Db) (geo : GeoFun) (l : Listing) : ResolvedLocation :=
  let loc := pyStrip l.location
  match findZipCode loc with
  | some z => resolveFromZip cfg db z false
  | none =>
    let p := _parse_location_parts loc
    if (p.1.isSome || p.2.1.isSome) && cfg.geocode_fallback then
      match geo (p.1.getD "") (p.2.1.getD "") with
      | some z =>
        -- `if not zip_code:` treats an empty geocoder result as no zip
        if z = "" then ⟨none, none, none, true⟩ else resolveFromZip cfg db z true
      | none => ⟨none, none, none, true⟩
    else ⟨none, none, none, false⟩

/-! ## `_rows_to_summary` and the per-source query builders -/

def _rows_to_summary (cfg : MySQLConfig) (rows : List Row) : String :=
  if rows.isEmpty then "No similar listings found in the database."
  else
    let lines := (pySlice cfg.max_rows rows).enum.map (fun ir =>
      "  " ++ toString (ir.1 + 1) ++ ". "
        ++ String.intercalate " | " ((ir.2.take 6).map (fun kv => kv.1 ++ ": " ++ pyStrValue kv.2)))
    "Similar or related listings from your database:\n" ++ String.intercalate "\n" lines

/-! ## `_fetch_sales_comps`: two-pass, zip → county → region -/

def filtersOf (cfg : MySQLConfig) (beds : Option Int) (baths : Option ℚ) (year : Option Int) :
    List AttrFilter :=
  (match beds with | some b => [AttrFilter.beds b] | none => [])
    ++ (match baths with | some b => [AttrFilter.baths b] | none => [])
    ++ (match year with
        | some y =>
          if 0 ≤ cfg.year_tolerance then
            [AttrFilter.yearBetween (y - cfg.year_tolerance) (y + cfg.year_tolerance)]
          else []
        | none => [])

def scopeListOf (r : ResolvedLocation) : List ScopeKey :=
  (match r.zip with | some z => [ScopeKey.zip z] | none => [])
    ++ (match r.county_id with | some c => [ScopeKey.county c] | none => [])
    ++ (match r.region_id with | some g => [ScopeKey.region g] | none => [])

/-- The for-loop over candidate scopes: a failed query is skipped, an empty
result continues, the first non-empty result returns. -/
def firstScopeHit (db : Db) (fs : List AttrFilter) (limit : Int) :
    List ScopeKey → Option (ScopeKey × List Row)
  | [] => none
  | t :: ts =>
    match db.salesQuery t fs limit with
    | .ok (r :: rs) => some (t, r :: rs)
    | _ => firstScopeHit db fs limit ts

def _fetch_sales_comps (cfg : MySQLConfig) (db : Db) (geo : GeoFun) (l : Listing) :
    Option ComparisonResult :=
  if !(cfg.use_sales_comps && _safe_table cfg.sales_table && _safe_table cfg.properties_table) then
    none
  else
    let r := _resolve_location cfg db geo l
    let bby := _parse_beds_baths_year l
    let fs := filtersOf cfg bby.1 bby.2.1 bby.2.2
    let tries := scopeListOf r
    match firstScopeHit db fs cfg.sales_max_rows tries with
    | some (t, rows) =>
      some { summary := "Recent sold comps (" ++ scopeName t ++ "):\n" ++ _rows_to_summary cfg rows,
             rows := rows,
             raw_text := String.intercalate "\n" (rows.map pyStrRow),
             sales_scope := some (scopeName t) }
    | none =>
      match (if fs.isEmpty then none else firstScopeHit db [] cfg.sales_max_rows tries) with
      | some (t, rows) =>
        some { summary := "Recent sold comps (" ++ scopeName t ++ ", area):\n"
                 ++ _rows_to_summary cfg rows,
               rows := rows,
               raw_text := String.intercalate "\n" (rows.map pyStrRow),
               sales_scope := some (scopeName t) }
      | none =>
        some { summary := "No recent sales comps found for this location (zip → county → region).",
               rows := [], raw_text := "" }

/-! ## `_run_builtin_comparison` -/

/-- The query `_run_builtin_comparison` would execute, or none when the
feature is disabled.  Unsafe column names are replaced by the defaults
"title"/"price"; an unsafe table name disables the query. -/
def builtinQueryOf (cfg : MySQLConfig) (l : Listing) : Option BuiltinQuery :=
  match cfg.comparison_table with
  | none => none
  | some table =>
    if table = "" || !reMatchIdent table then none
    else
      let titleCol := if reMatchIdent cfg.title_column then cfg.title_column else "title"
      let priceCol := cfg.price_column.map (fun pc => if reMatchIdent pc then pc else "price")
      let priceVal := _parse_price l.price
      let titleLike := "%" ++ pyTake 30 l.title ++ "%"
      match priceCol, priceVal with
      | some pc, some pv =>
        some ⟨table, titleCol, some pc, titleLike, some (pv * (3 / 2 : ℚ)), cfg.max_rows⟩
      | some pc, none => some ⟨table, titleCol, some pc, titleLike, none, cfg.max_rows⟩
      | none, _ => some ⟨table, titleCol, none, titleLike, none, cfg.max_rows⟩

def _run_builtin_comparison (cfg : MySQLConfig) (db : Db) (l : Listing) :
    Except Unit (Option ComparisonResult) :=
  match builtinQueryOf cfg l with
  | none => .ok none
  | some q => do
    let rows ← db.builtinQueryExec q
    pure (some { summary := _rows_to_summary cfg rows,
                 rows := rows,
                 raw_text := String.intercalate "\n" (rows.map pyStrRow) })

/-! ## `_run_custom_query` -/

def pyRStripSpaceSemi (s : String) : String :=
  ⟨(s.data.reverse.dropWhile (fun c => c = ' ' || c = ';')).reverse⟩

def customQueryText (cfg : MySQLConfig) (q0 : String) (l : Listing) (item_name : String) : String :=
  let title := pyTake 200 (l.title.replace "%" "%%")
  let price := l.price
  let location := pyTake 100 (l.location.replace "%" "%%")
  let q1 := (((q0.replace "\x7btitle\x7d" title).replace "\x7bprice\x7d" price).replace
    "\x7blocation\x7d" location).replace "\x7bitem_name\x7d" item_name
  if hasSubstr "LIMIT".data q1.toUpper.data then q1
  else pyRStripSpaceSemi q1 ++ " LIMIT " ++ toString cfg.max_rows

def _run_custom_query (cfg : MySQLConfig) (db : Db) (q0 : String) (l : Listing)
    (item_name : String) : Except Unit ComparisonResult := do
  let rows ← db.customQueryExec (customQueryText cfg q0 l item_name)
  pure { summary := _rows_to_summary cfg rows,
         rows := rows,
         raw_text := String.intercalate "\n" ((pySlice cfg.max_rows rows).map pyStrRow) }

/-! ## `_get_average_lot_rent` -/

/-- The ordered zip/county/region lot-rent lookups that will be attempted:
scopes with an unsafe where-column or an absent key are skipped; an unsafe
value column falls back to "avg_rent". -/
def lotQueriesOf (cfg : MySQLConfig) (r : ResolvedLocation) (table : String) : List LotQuery :=
  let val0 := if cfg.lot_rent_value_column = "" then "avg_rent" else cfg.lot_rent_value_column
  let valCol := if _safe_table val0 then val0 else "avg_rent"
  (match r.zip, _safe_table cfg.lot_rent_zip_column with
   | some z, true => [⟨table, valCol, cfg.lot_rent_zip_column, LotKey.zipKey z, "zip"⟩]
   | _, _ => [])
  ++ (match r.county_id, _safe_table cfg.lot_rent_county_column with
      | some c, true => [⟨table, valCol, cfg.lot_rent_county_column, LotKey.intKey c, "county"⟩]
      | _, _ => [])
  ++ (match r.region_id, _safe_table cfg.lot_rent_region_column with
      | some g, true => [⟨table, valCol, cfg.lot_rent_region_column, LotKey.intKey g, "region"⟩]
      | _, _ => [])

/-- The per-scope loop: query failure, no row, NULL value and a non-numeric
value all continue to the next scope. -/
def lotScan (db : Db) : List LotQuery → String
  | [] => ""
  | q :: qs =>
    match db.lotRentLookup q with
    | .ok (some v) =>
      if v = Value.null then lotScan db qs
      else
        match pyFloat v with
        | .ok num =>
          "Average lot rent (" ++ q.scope ++ " " ++ lotKeyRender q.key ++ "): $"
            ++ pyMoneyInt (pyRoundHalfEven num)
        | .error _ => lotScan db qs
    | _ => lotScan db qs

def _get_average_lot_rent (cfg : MySQLConfig) (db : Db) (geo : GeoFun) (l : Listing) : String :=
  match cfg.lot_rent_table with
  | none => ""
  | some table =>
    if !_safe_table table then ""
    else lotScan db (lotQueriesOf cfg (_resolve_location cfg db geo l) table)

/-! ## The concise price line (fetch_comparison, lines after the try block).
These list comprehensions call float() on raw row values and are NOT inside
the surrounding try/except, so a non-numeric price value raises out of
fetch_comparison; the embedding keeps them in Except to expose that. -/

def extractRowPrices (col : String) (rows : List Row) : Except Unit (List ℚ) :=
  (rows.filterMap (fun r =>
    match rowGet r col with
    | some v => if v = Value.null then none else some v
    | none => none)).mapM pyFloat

def listMean (ps : List ℚ) : ℚ := ps.sum / (ps.length : ℚ)

/-- The price column of the Facebook comparison:
`price_col = self.config.price_column or "asking_price"`. -/
def fbPriceCol (cfg : MySQLConfig) : String :=
  match cfg.price_column with
  | some s => if s = "" then "asking_price" else s
  | none => "asking_price"

def vsZillowParts (cfg : MySQLConfig) (lp : Option ℚ) (salesRes : Option ComparisonResult) :
    Except Unit (List String) :=
  let scopeTxt : String :=
    match salesRes.bind (·.sales_scope) with
    | some s => " (computed using " ++ s ++ ")"
    | none => ""
  match salesRes, lp with
  | some sr, some p =>
    if !sr.rows.isEmpty then do
      let prices ← extractRowPrices "sale_price" sr.rows
      if !prices.isEmpty then
        let avg := listMean prices
        let pct := (p - avg) / avg * 100
        pure ["Vs Zillow: " ++ toString (pyRoundHalfEven |pct|) ++ "% "
          ++ (if pct < 0 then "below" else "above")
          ++ " average when compared to recently sold Zillow listings" ++ scopeTxt ++ "."]
      else pure ["Vs Zillow: no comps."]
    else if cfg.use_sales_comps then pure ["Vs Zillow: no comps."] else pure []
  | _, _ => if cfg.use_sales_comps then pure ["Vs Zillow: no comps."] else pure []

def vsFacebookParts (cfg : MySQLConfig) (lp : Option ℚ) (fbRes : Option ComparisonResult) :
    Except Unit (List String) :=
  match fbRes, lp with
  | some fr, some p =>
    if !fr.rows.isEmpty then do
      let prices ← extractRowPrices (fbPriceCol cfg) fr.rows
      if !prices.isEmpty then
        let avg := listMean prices
        let pct := (p - avg) / avg * 100
        pure ["Vs Facebook: " ++ toString (pyRoundHalfEven |pct|) ++ "% "
          ++ (if pct < 0 then "below" else "above")
          ++ " average when compared to similar Facebook Marketplace listings."]
      else pure ["Vs Facebook: no data."]
    else if optStrTruthy cfg.comparison_table then pure ["Vs Facebook: no data."] else pure []
  | _, _ => if optStrTruthy cfg.comparison_table then pure ["Vs Facebook: no data."] else pure []

def buildConcisePriceLine (cfg : MySQLConfig) (lp : Option ℚ)
    (salesRes fbRes : Option ComparisonResult) : Except Unit String := do
  let z ← vsZillowParts cfg lp salesRes
  let f ← vsFacebookParts cfg lp fbRes
  pure (String.intercalate " " (z ++ f))

/-! ## `fetch_comparison` -/

/-- Body of the try block: the branch over custom query / sales comps /
builtin comparison, gathering summary parts and the two raw results.
An Except.error is a raised driver exception, caught by the handler. -/
def gatherParts (cfg : MySQLConfig) (db : Db) (geo : GeoFun) (l : Listing) (item_name : String) :
    Except Unit (List String × Option ComparisonResult × Option ComparisonResult) :=
  if optStrTruthy cfg.comparison_query then do
    let res ← _run_custom_query cfg db (cfg.comparison_query.getD "") l item_name
    pure ([res.summary], none, none)
  else if cfg.use_sales_comps then
    let salesRes := _fetch_sales_comps cfg db geo l
    let parts1 := match salesRes with | some sr => [sr.summary] | none => []
    if optStrTruthy cfg.comparison_table then do
      let fbRes ← _run_builtin_comparison cfg db l
      let parts2 :=
        match fbRes with
        | some fr => if fr.summary ≠ "" then [fr.summary] else []
        | none => []
      pure (parts1 ++ parts2, salesRes, fbRes)
    else pure (parts1, salesRes, none)
  else if optStrTruthy cfg.comparison_table then do
    let fbRes ← _run_builtin_comparison cfg db l
    let parts := match fbRes with | some fr => [fr.summary] | none => []
    pure (parts, none, fbRes)
  else pure ([], none, none)

/-- `fetch_comparison`.  Result: .ok none = returned None, .ok (some r) = a
result, .error = an exception escaped to the caller (which the post-try price
line computation can do).  Cursor acquisition is assumed to succeed. -/
def fetch_comparison (cfg : MySQLConfig) (db : Db) (geo : GeoFun) (l : Listing)
    (item_name : String) : Except Unit (Option ComparisonResult) :=
  if !cfg.enabled then .ok none
  else if !(cfg.use_sales_comps || optStrTruthy cfg.comparison_query
      || optStrTruthy cfg.comparison_table) then .ok none
  else if !db.connectOk then .ok none
  else
    match gatherParts cfg db geo l item_name with
    | .error _ => .ok none
    | .ok (parts, salesRes, fbRes) =>
      let lotLine :=
        if optStrTruthy cfg.lot_rent_table && _safe_table (cfg.lot_rent_table.getD "") then
          if !_lot_rent_in_listing l then _get_average_lot_rent cfg db geo l else ""
        else ""
      if parts.isEmpty then .ok none
      else do
        let line ← buildConcisePriceLine cfg (_parse_price l.price) salesRes fbRes
        .ok (some { summary := String.intercalate "\n\n" parts,
                    rows := [], raw_text := "",
                    concise_price_line := line,
                    sales_scope := salesRes.bind (·.sales_scope),
                    average_lot_rent_line := lotLine })

/-! ## `_geocode_city_state_to_zip`, stateful embedding.

State: the persistent cache (normalized query → cached zip), plus counters of
live network requests and of rate-limit sleeps.  The network is an oracle
from the query text to an outcome: a raised error / non-2xx, or the list of
result postcodes ("" for a result without one).  cache.get/cache.set failures
are swallowed by the source; the model cache always works. -/

inductive NetOutcome where
  | error
  | results (rs : List String)
deriving DecidableEq, Repr

structure GeoState where
  cache : List (String × String)
  netCalls : Nat
  sleeps : Nat
deriving DecidableEq, Repr

def cacheGet (c : List (String × String)) (k : String) : Option String :=
  (c.find? (fun kv => kv.1 == k)).map (·.2)

def cacheSet (c : List (String × String)) (k v : String) : List (String × String) :=
  (k, v) :: c

/-- re.match(r"^\d{5}(?:-\d{4})?$", postcode) on the stripped postcode. -/
def validPostcode : List Char → Bool
  | a :: b :: c :: d :: e :: rest =>
    a.isDigit && b.isDigit && c.isDigit && d.isDigit && e.isDigit &&
      (match rest with
       | [] => true
       | '-' :: f :: g :: h :: i :: [] => f.isDigit && g.isDigit && h.isDigit && i.isDigit
       | _ => false)
  | _ => false

/-- First result whose (stripped, non-empty) postcode matches the pattern;
the zip is its first five characters. -/
def firstValidPostcode (rs : List String) : Option String :=
  rs.findSome? (fun p =>
    if pyStripChars isPySpace p.data ≠ [] && validPostcode (pyStripChars isPySpace p.data) then
      some ⟨(pyStripChars isPySpace p.data).take 5⟩
    else none)

def normalizedGeoQuery (query : String) : String :=
  pyStrip (collapseWs (pyLower query))

/-- f"{city or ''},{state or ''},USA".strip(" ,") -/
def geoQueryOf (city state : String) : String :=
  pyStripSpaceComma (city ++ "," ++ state ++ ",USA")

def _geocode_city_state_to_zip (cfg : MySQLConfig) (net : String → NetOutcome) (st : GeoState)
    (city state : String) : Option String × GeoState :=
  if city = "" && state = "" then (none, st)
  else
    let query := geoQueryOf city state
    if query = "" || query = ",USA" then (none, st)
    else
      let normalized := normalizedGeoQuery query
      match cacheGet st.cache normalized with
      | some v => (if v ≠ "" then some v else none, st)
      | none =>
        if pyStrip (cfg.geocode_geoapify_api_key.getD "") = "" then (none, st)
        else
          match net query with
          | .error =>
            (none, { st with netCalls := st.netCalls + 1, sleeps := st.sleeps + 1 })
          | .results rs =>
            if rs.isEmpty then
              (none, { st with netCalls := st.netCalls + 1, sleeps := st.sleeps + 1 })
            else
              match firstValidPostcode rs with
              | some z =>
                (some z, { cache := cacheSet st.cache normalized z,
                           netCalls := st.netCalls + 1, sleeps := st.sleeps + 1 })
              | none =>
                (none, { st with netCalls := st.netCalls + 1, sleeps := st.sleeps + 1 })

/-! ## `insert_fb_listing` -/

structure FbValues where
  external_id : String
  title : String
  description : String
  asking_price : Option ℚ
  city : Option String
  state : Option String
  zip : Option String
  url : Option String
  beds : Option Int
  baths : Option ℚ
  county_id : Option Int
  region_id : Option Int
deriving DecidableEq, Repr

structure FbRow where
  external_id : String
  title : String
  description : String
  asking_price : Option ℚ
  city : Option String
  state : Option String
  zip : Option String
  url : Option String
  beds : Option Int
  baths : Option ℚ
  county_id : Option Int
  region_id : Option Int
  posted_date : Option Nat
  updated_at : Option Nat
deriving DecidableEq, Repr

/-- Python `(s or "")[:n] or None`. -/
def optTrunc (n : Nat) : Option String → Option String
  | some s => let t := pyTake n s; if t = "" then none else some t
  | none => none

/-- The bound values of the INSERT, derived exactly as in the source. -/
def fbValuesOf (cfg : MySQLConfig) (db : Db) (geo : GeoFun) (l : Listing) : FbValues :=
  let p := _parse_location_parts l.location
  let bby := _parse_beds_baths_year l
  let r := _resolve_location cfg db geo l
  let zipFinal : Option String :=
    match r.zip with
    | some z => some z
    | none => p.2.2
  { external_id := l.id,
    title := pyTake 500 l.title,
    description := pyTake 10000 l.description,
    asking_price := _parse_price l.price,
    city := optTrunc 200 p.1,
    state := optTrunc 10 p.2.1,
    zip := optTrunc 10 zipFinal,
    url := optTrunc 2000 (some l.post_url),
    beds := bby.1,
    baths := bby.2.1,
    county_id := r.county_id,
    region_id := r.region_id }

/-- The ON DUPLICATE KEY UPDATE assignment list: every derived column, plus
updated_at = NOW() in the variant that has it; external_id and posted_date
are not in the list. -/
def applyFbUpdate (r : FbRow) (now : Nat) (withUpdated : Bool) (v : FbValues) : FbRow :=
  { r with title := v.title, description := v.description,
           asking_price := v.asking_price, city := v.city, state := v.state,
           zip := v.zip, url := v.url, beds := v.beds, baths := v.baths,
           county_id := v.county_id, region_id := v.region_id,
           updated_at := if withUpdated then some now else r.updated_at }

def newFbRow (now : Nat) (withPosted : Bool) (v : FbValues) : FbRow :=
  { external_id := v.external_id, title := v.title, description := v.description,
    asking_price := v.asking_price, city := v.city, state := v.state, zip := v.zip,
    url := v.url, beds := v.beds, baths := v.baths, county_id := v.county_id,
    region_id := v.region_id,
    posted_date := if withPosted then some now else none,
    updated_at := none }

/-- MySQL INSERT ... ON DUPLICATE KEY UPDATE against a table with a unique
key on external_id: update the matching row if one exists, else append. -/
def fbUpsert (t : List FbRow) (now : Nat) (withPosted withUpdated : Bool) (v : FbValues) :
    List FbRow :=
  if t.any (fun r => r.external_id = v.external_id) then
    t.map (fun r => if r.external_id = v.external_id then applyFbUpdate r now withUpdated v else r)
  else t ++ [newFbRow now withPosted v]

/-- `insert_fb_listing`.  The four-variant fallback over unknown posted_date /
updated_at columns resolves to using each column exactly when the schema has
it; any other execution failure (db.insertOk = false) rolls back and returns
false.  The optional history insert touches only the history table and never
changes the return value, so it is not carried in the state. -/
def insert_fb_listing (cfg : MySQLConfig) (db : Db) (geo : GeoFun) (t : List FbRow) (now : Nat)
    (l : Listing) : Bool × List FbRow :=
  if !(cfg.enabled && _safe_table cfg.fb_listings_table) then (false, t)
  else if !cfg.insert_into_fb then (false, t)
  else if !db.connectOk then (false, t)
  else
    let v := fbValuesOf cfg db geo l
    if !db.insertOk then (false, t)
    else (true, fbUpsert t now db.hasPostedDate db.hasUpdatedAt v)

/-! ## Derived abbreviations used by the statements below -/

/-- The candidate scopes `_fetch_sales_comps` iterates for a listing. -/
def triesOf (cfg : MySQLConfig) (db : Db) (geo : GeoFun) (l : Listing) : List ScopeKey :=
  scopeListOf (_resolve_location cfg db geo l)

/-- The pass-1 attribute filters `_fetch_sales_comps` builds for a listing. -/
def listingFilters (cfg : MySQLConfig) (l : Listing) : List AttrFilter :=
  filtersOf cfg (_parse_beds_baths_year l).1 (_parse_beds_baths_year l).2.1
    (_parse_beds_baths_year l).2.2

/-- Rows a single scope query yields: a failed query contributes no rows. -/
def scopeRows (db : Db) (fs : List AttrFilter) (limit : Int) (t : ScopeKey) : List Row :=
  match db.salesQuery t fs limit with
  | .ok rs => rs
  | .error _ => []

/-! ## Concrete fixtures for witnesses and counterexamples -/

def geoNone : GeoFun := fun _ _ => none

def dbEmpty : Db :=
  { connectOk := true,
    zipCountyLookup := fun _ => .ok none,
    propCountyByZip := fun _ => .ok none,
    countyRegionLookup := fun _ => .ok none,
    propRegionByCounty := fun _ => .ok none,
    salesQuery := fun _ _ _ => .ok [],
    builtinQueryExec := fun _ => .ok [],
    customQueryExec := fun _ => .ok [],
    lotRentLookup := fun _ => .ok none,
    hasPostedDate := true, hasUpdatedAt := true, insertOk := true }

def zipCountyErie (z : String) : Except Unit (Option Int) :=
  if z = "16509" then .ok (some 3) else .ok none

def countyRegionErie (c : Int) : Except Unit (Option Int) :=
  if c = 3 then .ok (some 1) else .ok none

def rowA : Row := [("sale_price", Value.num 50000)]

def salesCountyOnly (sk : ScopeKey) (_fs : List AttrFilter) (_lim : Int) :
    Except Unit (List Row) :=
  match sk with
  | .county _ => .ok [rowA]
  | _ => .ok []

def dbCounty : Db :=
  { dbEmpty with zipCountyLookup := zipCountyErie, countyRegionLookup := countyRegionErie,
                 salesQuery := salesCountyOnly }

def lstErie : Listing :=
  { location := "Erie, PA 16509", title := "3 bed 2 bath built 1987", price := "$40,000" }

def sr0 : ComparisonResult :=
  { summary := "s", rows := [[("sale_price", Value.num 120000)]], sales_scope := some "zip" }

def dbBadPrice : Db :=
  { dbEmpty with salesQuery := fun _ _ _ => .ok [[("sale_price", Value.str "N/A")]] }

def lstBadPrice : Listing := { location := "16428", price := "$100", title := "house" }

def netEmpty : String → NetOutcome := fun _ => .results []

def netErie : String → NetOutcome :=
  fun q => if q = "Erie,PA,USA" then .results ["16501-1234"] else .results []

def cfgKey : MySQLConfig := { geocode_geoapify_api_key := some "k" }

def stCached : GeoState := ⟨[("erie,pa,usa", "16501")], 0, 0⟩

def dbLot : Db :=
  { dbEmpty with lotRentLookup := fun q =>
      match q.key with
      | .zipKey z => if z = "16428" then .ok (some (Value.num 400)) else .ok none
      | _ => .ok none }

def cfgLot : MySQLConfig :=
  { use_sales_comps := true, sales_table := "bad name", lot_rent_table := some "lot_rents" }

def lstCouch : Listing := { location := "16428", title := "couch" }

def lstFirst : Listing :=
  { id := "FB1", title := "First title 3 bed", price := "$30,000", location := "Erie, PA 16509" }

def lstSecond : Listing :=
  { id := "FB1", title := "Second title 3 bed", price := "$31,000", location := "Erie, PA 16509" }

def cfgBadCol : MySQLConfig :=
  { comparison_table := some "fb_listings", title_column := "title; DROP TABLE x" }

def dbOneRow : Db :=
  { dbEmpty with builtinQueryExec := fun _ => .ok [[("title", Value.str "sofa")]] }

def lstSofa : Listing := { title := "sofa", price := "$100" }

def cfgBadTable : MySQLConfig := { comparison_table := some "fb_listings; DROP TABLE x" }

def lstSpringfield : Listing := { location := "Springfield" }

instance {ε α : Type} [DecidableEq ε] [DecidableEq α] : DecidableEq (Except ε α) := fun a b =>
  match a, b with
  | .ok x, .ok y => if h : x = y then .isTrue (by rw [h]) else .isFalse (by simp [h])
  | .error x, .error y => if h : x = y then .isTrue (by rw [h]) else .isFalse (by simp [h])
  | .ok _, .error _ => .isFalse (by simp)
  | .error _, .ok _ => .isFalse (by simp)

/-! # Theorems -/

theorem resolveFromZip_zip (cfg : MySQLConfig) (db : Db) (z : String) (b : Bool) :
    (resolveFromZip cfg db z b).zip = some z := by
  unfold resolveFromZip
  split
  · rfl
  · split <;> rfl

theorem resolveFromZip_region_county (cfg : MySQLConfig) (db : Db) (z : String) (b : Bool) :
    (resolveFromZip cfg db z b).region_id.isSome = true →
    (resolveFromZip cfg db z b).county_id.isSome = true := by
  unfold resolveFromZip
  split
  · simp
  · split <;> simp

theorem resolveFromZip_called (cfg : MySQLConfig) (db : Db) (z : String) (b : Bool) :
    (resolveFromZip cfg db z b).geocoderCalled = b := by
  unfold resolveFromZip
  split
  · rfl
  · split <;> rfl

/-- C9: every (zip, county_id, region_id) triple produced by
`_resolve_location`, on every exit path, satisfies the hierarchy invariant:
county_id is present only if zip is present, and region_id only if county_id
is present. -/
theorem C9_hierarchy_invariant (cfg : MySQLConfig) (db : Db) (geo : GeoFun) (l : Listing) :
    ((_resolve_location cfg db geo l).county_id.isSome = true →
      (_resolve_location cfg db geo l).zip.isSome = true)
  ∧ ((_resolve_location cfg db geo l).region_id.isSome = true →
      (_resolve_location cfg db geo l).county_id.isSome = true) := by
  simp only [_resolve_location]
  split
  · constructor
    · intro _; rw [resolveFromZip_zip]; rfl
    · exact resolveFromZip_region_county cfg db _ _
  · split
    · split
      · split
        · exact ⟨fun h => by simp at h, fun h => by simp at h⟩
        · constructor
          · intro _; rw [resolveFromZip_zip]; rfl
          · exact resolveFromZip_region_county cfg db _ _
      · exact ⟨fun h => by simp at h, fun h => by simp at h⟩
    · exact ⟨fun h => by simp at h, fun h => by simp at h⟩

theorem C9_hierarchy_invariant_witness :
    (_resolve_location {} dbCounty geoNone lstErie).zip.isSome = true :=
  (C9_hierarchy_invariant {} dbCounty geoNone lstErie).1 (by decide)

/-- C2 counterexample: the claim requires the geocoding call to be made only
when BOTH city and state parsing succeeded; for location "Springfield" the
state parse fails (and no zip is present), yet the code invokes the geocoder
with the city alone. -/
theorem C2_counterexample :
    findZipCode (pyStrip "Springfield") = none
  ∧ (_parse_location_parts (pyStrip "Springfield")).2.1 = none
  ∧ (_resolve_location {} dbEmpty geoNone lstSpringfield).geocoderCalled = true := by
  refine ⟨by decide, by decide, by decide⟩

/-- C2 (amended): zip resolution is strictly tiered: (1) a 5-digit regex
match in the location text is used as-is and the geocoder is never invoked;
(2) otherwise the geocoder is invoked exactly when at least one of city or
state parsed and geocoding is enabled, and its result (possibly absent) is
the zip; (3) there is no further fallback: when neither tier applies,
resolution returns all-absent fields without invoking the geocoder. -/
theorem C2_zip_resolution_tiers (cfg : MySQLConfig) (db : Db) (geo : GeoFun) (l : Listing) :
    (∀ z, findZipCode (pyStrip l.location) = some z →
       (_resolve_location cfg db geo l).zip = some z
         ∧ (_resolve_location cfg db geo l).geocoderCalled = false)
  ∧ (findZipCode (pyStrip l.location) = none →
       (((_parse_location_parts (pyStrip l.location)).1.isSome
           || (_parse_location_parts (pyStrip l.location)).2.1.isSome)
         && cfg.geocode_fallback) = true →
       geo ((_parse_location_parts (pyStrip l.location)).1.getD "")
           ((_parse_location_parts (pyStrip l.location)).2.1.getD "") ≠ some "" →
       (_resolve_location cfg db geo l).geocoderCalled = true
         ∧ (_resolve_location cfg db geo l).zip
             = geo ((_parse_location_parts (pyStrip l.location)).1.getD "")
                   ((_parse_location_parts (pyStrip l.location)).2.1.getD ""))
  ∧ (findZipCode (pyStrip l.location) = none →
       (((_parse_location_parts (pyStrip l.location)).1.isSome
           || (_parse_location_parts (pyStrip l.location)).2.1.isSome)
         && cfg.geocode_fallback) = false →
       _resolve_location cfg db geo l = ⟨none, none, none, false⟩) := by
  refine ⟨?_, ?_, ?_⟩
  · intro z hz
    simp only [_resolve_location]
    rw [hz]
    exact ⟨resolveFromZip_zip .., resolveFromZip_called ..⟩
  · intro hz hcs hge
    simp only [_resolve_location]
    rw [hz]
    simp only [hcs, if_true]
    cases hg : geo ((_parse_location_parts (pyStrip l.location)).1.getD "")
        ((_parse_location_parts (pyStrip l.location)).2.1.getD "") with
    | none => exact ⟨rfl, rfl⟩
    | some z =>
      rw [hg] at hge
      show (if z = "" then (⟨none, none, none, true⟩ : ResolvedLocation)
            else resolveFromZip cfg db z true).geocoderCalled = true
        ∧ (if z = "" then (⟨none, none, none, true⟩ : ResolvedLocation)
            else resolveFromZip cfg db z true).zip = some z
      rw [if_neg (fun he => hge (by rw [he]))]
      exact ⟨resolveFromZip_called .., resolveFromZip_zip ..⟩
  · intro hz hcs
    simp only [_resolve_location]
    rw [hz]
    simp [hcs]

theorem C2_zip_resolution_tiers_witness :
    (_resolve_location {} dbEmpty geoNone { location := "Erie, PA 16509" }).zip = some "16509"
  ∧ (_resolve_location {} dbEmpty geoNone { location := "Erie, PA 16509" }).geocoderCalled
      = false :=
  (C2_zip_resolution_tiers {} dbEmpty geoNone { location := "Erie, PA 16509" }).1 "16509"
    (by decide)

theorem cacheGet_set (c : List (String × String)) (k v : String) :
    cacheGet (cacheSet c k v) k = some v := by
  simp [cacheGet, cacheSet, List.find?]

theorem firstValidPostcode_ne (rs : List String) (z : String)
    (h : firstValidPostcode rs = some z) : z ≠ "" := by
  induction rs with
  | nil => simp [firstValidPostcode] at h
  | cons p ps ih =>
    rw [firstValidPostcode, List.findSome?_cons] at h
    split at h
    · rename_i heq
      split at heq
      · rename_i hcond
        cases h
        cases heq
        have hv : validPostcode (pyStripChars isPySpace p.data) = true :=
          (Bool.and_eq_true ..).mp hcond |>.2
        match ht : pyStripChars isPySpace p.data with
        | a :: b :: c :: d :: e :: rest =>
          intro he
          exact absurd (congrArg String.data he) (by simp)
        | [] | [_] | [_, _] | [_, _, _] | [_, _, _, _] =>
          rw [ht] at hv; simp [validPostcode] at hv
      · exact absurd heq (by simp)
    · exact ih (by rw [firstValidPostcode]; exact h)

/-- C8: every live geocoding attempt — zip found, no result, or error — is
followed by exactly one rate-limit sleep; a call that makes no live attempt
(answered from the cache or short-circuited before any request) performs
neither a network call nor a sleep, and a cache-answered call leaves the
state untouched. -/
theorem C8_rate_limit_sleep (cfg : MySQLConfig) (net : String → NetOutcome) (st : GeoState)
    (city state : String) :
    (((_geocode_city_state_to_zip cfg net st city state).2.netCalls = st.netCalls
        ∧ (_geocode_city_state_to_zip cfg net st city state).2.sleeps = st.sleeps)
      ∨ ((_geocode_city_state_to_zip cfg net st city state).2.netCalls = st.netCalls + 1
        ∧ (_geocode_city_state_to_zip cfg net st city state).2.sleeps = st.sleeps + 1))
  ∧ (∀ v, cacheGet st.cache (normalizedGeoQuery (geoQueryOf city state)) = some v →
      (_geocode_city_state_to_zip cfg net st city state).2 = st) := by
  constructor
  · simp only [_geocode_city_state_to_zip]
    repeat' split
    all_goals first
      | exact Or.inl ⟨rfl, rfl⟩
      | exact Or.inr ⟨rfl, rfl⟩
  · intro v hv
    simp only [_geocode_city_state_to_zip]
    repeat' split
    all_goals first
      | rfl
      | simp_all

theorem C8_rate_limit_sleep_witness :
    (_geocode_city_state_to_zip cfgKey netEmpty stCached "Erie" "PA").2 = stCached :=
  (C8_rate_limit_sleep cfgKey netEmpty stCached "Erie" "PA").2 "16501" (by decide)

/-- C3 counterexample: with a network that finds no result, the first call
writes nothing to the cache, so a second identical call issues a second live
network request — the claim's "at most one live request, cached misses
included" is false on the code. -/
theorem C3_counterexample :
    (_geocode_city_state_to_zip cfgKey netEmpty ⟨[], 0, 0⟩ "Nowhere" "ZZ").2.cache = []
  ∧ (_geocode_city_state_to_zip cfgKey netEmpty
      (_geocode_city_state_to_zip cfgKey netEmpty ⟨[], 0, 0⟩ "Nowhere" "ZZ").2
      "Nowhere" "ZZ").2.netCalls = 2 := by
  exact ⟨by decide, by decide⟩

/-- C3 (amended): only a successfully resolved zip is written to the cache
(under the normalized lowercase query): when a call returns a zip, every
later call with the same query returns the same zip from the cache without
touching the state; a call that returns no zip leaves the cache unchanged,
so later identical calls repeat the live request. -/
theorem C3_cache_only_on_success (cfg : MySQLConfig) (net : String → NetOutcome) (st : GeoState)
    (city state : String) :
    (∀ z st1, _geocode_city_state_to_zip cfg net st city state = (some z, st1) →
        _geocode_city_state_to_zip cfg net st1 city state = (some z, st1))
  ∧ ((_geocode_city_state_to_zip cfg net st city state).1 = none →
        (_geocode_city_state_to_zip cfg net st city state).2.cache = st.cache) := by
  constructor
  · intro z st1 h
    simp only [_geocode_city_state_to_zip] at h ⊢
    split at h
    · exact absurd h (by simp)
    · split at h
      · exact absurd h (by simp)
      · split at h
        · rename_i v hv
          split at h
          · rename_i hvne
            cases h
            simp_all
          · exact absurd h (by simp)
        · rename_i hmiss
          split at h
          · exact absurd h (by simp)
          · split at h
            · exact absurd h (by simp)
            · split at h
              · exact absurd h (by simp)
              · split at h
                · rename_i z5 hz5
                  cases h
                  have hne := firstValidPostcode_ne _ _ hz5
                  simp_all [cacheGet_set]
                · exact absurd h (by simp)
  · intro h
    simp only [_geocode_city_state_to_zip] at h ⊢
    repeat' split
    all_goals first
      | rfl
      | simp_all

theorem C3_cache_only_on_success_witness :
    _geocode_city_state_to_zip cfgKey netErie
        (_geocode_city_state_to_zip cfgKey netErie ⟨[], 0, 0⟩ "Erie" "PA").2 "Erie" "PA"
      = (some "16501", (_geocode_city_state_to_zip cfgKey netErie ⟨[], 0, 0⟩ "Erie" "PA").2) :=
  (C3_cache_only_on_success cfgKey netErie ⟨[], 0, 0⟩ "Erie" "PA").1 "16501"
    (_geocode_city_state_to_zip cfgKey netErie ⟨[], 0, 0⟩ "Erie" "PA").2 (by decide)

theorem firstScopeHit_cons_empty (db : Db) (fs : List AttrFilter) (lim : Int) (t : ScopeKey)
    (ts : List ScopeKey) (h : scopeRows db fs lim t = []) :
    firstScopeHit db fs lim (t :: ts) = firstScopeHit db fs lim ts := by
  cases hq : db.salesQuery t fs lim with
  | ok rs =>
    cases rs with
    | nil => simp [firstScopeHit, hq]
    | cons a as => exfalso; rw [scopeRows, hq] at h; exact absurd h (by simp)
  | error e => simp [firstScopeHit, hq]

theorem firstScopeHit_hit (db : Db) (fs : List AttrFilter) (lim : Int) (t : ScopeKey)
    (ts : List ScopeKey) (h : scopeRows db fs lim t ≠ []) :
    firstScopeHit db fs lim (t :: ts) = some (t, scopeRows db fs lim t) := by
  cases hq : db.salesQuery t fs lim with
  | ok rs =>
    cases rs with
    | nil => exfalso; rw [scopeRows, hq] at h; exact absurd rfl h
    | cons a as => simp [firstScopeHit, hq, scopeRows]
  | error e => exfalso; rw [scopeRows, hq] at h; exact absurd rfl h

theorem firstScopeHit_first (db : Db) (fs : List AttrFilter) (lim : Int)
    (pre : List ScopeKey) (t : ScopeKey) (post : List ScopeKey)
    (hpre : ∀ u ∈ pre, scopeRows db fs lim u = []) (ht : scopeRows db fs lim t ≠ []) :
    firstScopeHit db fs lim (pre ++ t :: post) = some (t, scopeRows db fs lim t) := by
  induction pre with
  | nil => exact firstScopeHit_hit db fs lim t post ht
  | cons u us ih =>
    rw [List.cons_append, firstScopeHit_cons_empty db fs lim u _ (hpre u (by simp))]
    exact ih (fun v hv => hpre v (by simp [hv]))

theorem firstScopeHit_none (db : Db) (fs : List AttrFilter) (lim : Int) (ts : List ScopeKey)
    (h : ∀ u ∈ ts, scopeRows db fs lim u = []) :
    firstScopeHit db fs lim ts = none := by
  induction ts with
  | nil => rfl
  | cons u us ih =>
    rw [firstScopeHit_cons_empty db fs lim u us (h u (by simp))]
    exact ih (fun v hv => h v (by simp [hv]))

theorem filtersOf_beds (cfg : MySQLConfig) (bo : Option Int) (qo : Option ℚ) (yo : Option Int)
    (b : Int) (hb : AttrFilter.beds b ∈ filtersOf cfg bo qo yo) : bo = some b := by
  unfold filtersOf at hb
  cases bo <;> cases qo <;> cases yo <;> simp_all <;> split_ifs at hb <;> simp_all

theorem filtersOf_baths (cfg : MySQLConfig) (bo : Option Int) (qo : Option ℚ) (yo : Option Int)
    (q : ℚ) (hb : AttrFilter.baths q ∈ filtersOf cfg bo qo yo) : qo = some q := by
  unfold filtersOf at hb
  cases bo <;> cases qo <;> cases yo <;> simp_all <;> split_ifs at hb <;> simp_all

theorem filtersOf_year (cfg : MySQLConfig) (bo : Option Int) (qo : Option ℚ) (yo : Option Int)
    (lo hi : Int) (hb : AttrFilter.yearBetween lo hi ∈ filtersOf cfg bo qo yo) :
    ∃ y, yo = some y ∧ 0 ≤ cfg.year_tolerance
      ∧ lo = y - cfg.year_tolerance ∧ hi = y + cfg.year_tolerance := by
  unfold filtersOf at hb
  cases bo <;> cases qo <;> cases yo <;> simp_all <;> split_ifs at hb <;> simp_all

theorem fetchSales_unfold (cfg : MySQLConfig) (db : Db) (geo : GeoFun) (l : Listing)
    (hu : cfg.use_sales_comps = true) (hs : _safe_table cfg.sales_table = true)
    (hp : _safe_table cfg.properties_table = true) :
    _fetch_sales_comps cfg db geo l =
      (match firstScopeHit db (listingFilters cfg l) cfg.sales_max_rows (triesOf cfg db geo l) with
       | some (t, rows) =>
         some { summary := "Recent sold comps (" ++ scopeName t ++ "):\n"
                  ++ _rows_to_summary cfg rows,
                rows := rows,
                raw_text := String.intercalate "\n" (rows.map pyStrRow),
                sales_scope := some (scopeName t) }
       | none =>
         match (if (listingFilters cfg l).isEmpty then none
                else firstScopeHit db [] cfg.sales_max_rows (triesOf cfg db geo l)) with
         | some (t, rows) =>
           some { summary := "Recent sold comps (" ++ scopeName t ++ ", area):\n"
                    ++ _rows_to_summary cfg rows,
                  rows := rows,
                  raw_text := String.intercalate "\n" (rows.map pyStrRow),
                  sales_scope := some (scopeName t) }
         | none =>
           some { summary :=
                    "No recent sales comps found for this location (zip → county → region).",
                  rows := [], raw_text := "" }) := by
  unfold _fetch_sales_comps listingFilters triesOf
  rw [hu, hs, hp]
  rfl

/-- C1: with sales comps enabled and safe table names, the comparable search
examines the candidate scopes in the fixed order zip, county, region (only
those whose identifier resolved); pass 1 applies a beds/baths/year filter
exactly for the extracted attributes and returns on the first scope yielding
at least one row, tagging sales_scope with that scope's name; pass 2 (no
attribute filters) can produce the result only when every pass-1 scope
yielded zero rows; and when both passes yield nothing the result states that
no comparables were found, with empty rows and absent sales_scope. -/
theorem C1_two_pass_comps (cfg : MySQLConfig) (db : Db) (geo : GeoFun) (l : Listing)
    (hu : cfg.use_sales_comps = true) (hs : _safe_table cfg.sales_table = true)
    (hp : _safe_table cfg.properties_table = true) :
    ((triesOf cfg db geo l).map scopeName
       = (if (_resolve_location cfg db geo l).zip.isSome then ["zip"] else [])
         ++ (if (_resolve_location cfg db geo l).county_id.isSome then ["county"] else [])
         ++ (if (_resolve_location cfg db geo l).region_id.isSome then ["region"] else []))
  ∧ (∀ b, AttrFilter.beds b ∈ listingFilters cfg l → (_parse_beds_baths_year l).1 = some b)
  ∧ (∀ q, AttrFilter.baths q ∈ listingFilters cfg l → (_parse_beds_baths_year l).2.1 = some q)
  ∧ (∀ lo hi, AttrFilter.yearBetween lo hi ∈ listingFilters cfg l →
       ∃ y, (_parse_beds_baths_year l).2.2 = some y ∧ 0 ≤ cfg.year_tolerance
         ∧ lo = y - cfg.year_tolerance ∧ hi = y + cfg.year_tolerance)
  ∧ (∀ pre t post, triesOf cfg db geo l = pre ++ t :: post →
       (∀ u ∈ pre, scopeRows db (listingFilters cfg l) cfg.sales_max_rows u = []) →
       scopeRows db (listingFilters cfg l) cfg.sales_max_rows t ≠ [] →
       ∃ cr, _fetch_sales_comps cfg db geo l = some cr
         ∧ cr.sales_scope = some (scopeName t)
         ∧ cr.rows = scopeRows db (listingFilters cfg l) cfg.sales_max_rows t)
  ∧ ((∀ u ∈ triesOf cfg db geo l,
        scopeRows db (listingFilters cfg l) cfg.sales_max_rows u = []) →
      ∀ pre t post, triesOf cfg db geo l = pre ++ t :: post →
       (∀ u ∈ pre, scopeRows db [] cfg.sales_max_rows u = []) →
       scopeRows db [] cfg.sales_max_rows t ≠ [] →
       ∃ cr, _fetch_sales_comps cfg db geo l = some cr
         ∧ cr.sales_scope = some (scopeName t)
         ∧ cr.rows = scopeRows db [] cfg.sales_max_rows t)
  ∧ ((∀ u ∈ triesOf cfg db geo l,
        scopeRows db (listingFilters cfg l) cfg.sales_max_rows u = []) →
      (∀ u ∈ triesOf cfg db geo l, scopeRows db [] cfg.sales_max_rows u = []) →
      _fetch_sales_comps cfg db geo l
        = some { summary :=
                   "No recent sales comps found for this location (zip → county → region).",
                 rows := [], raw_text := "" }) := by
  refine ⟨?_, ?_, ?_, ?_, ?_, ?_, ?_⟩
  · cases hz : (_resolve_location cfg db geo l).zip <;>
      cases hc : (_resolve_location cfg db geo l).county_id <;>
      cases hr : (_resolve_location cfg db geo l).region_id <;>
      simp [triesOf, scopeListOf, hz, hc, hr, scopeName]
  · exact fun b hb => filtersOf_beds cfg _ _ _ b hb
  · exact fun q hq => filtersOf_baths cfg _ _ _ q hq
  · exact fun lo hi hy => filtersOf_year cfg _ _ _ lo hi hy
  · intro pre t post hdec hpre ht
    rw [fetchSales_unfold cfg db geo l hu hs hp, hdec,
      firstScopeHit_first db _ _ pre t post hpre ht]
    exact ⟨_, rfl, rfl, rfl⟩
  · intro hall pre t post hdec hpre ht
    rw [fetchSales_unfold cfg db geo l hu hs hp,
      firstScopeHit_none db _ _ _ hall]
    cases hfe : (listingFilters cfg l).isEmpty with
    | true =>
      exfalso
      have hmem : t ∈ triesOf cfg db geo l := by rw [hdec]; simp
      have := hall t hmem
      rw [List.isEmpty_iff.mp hfe] at this
      exact ht this
    | false =>
      rw [if_neg (by simp [hfe]), hdec, firstScopeHit_first db _ _ pre t post hpre ht]
      exact ⟨_, rfl, rfl, rfl⟩
  · intro hall1 hall2
    rw [fetchSales_unfold cfg db geo l hu hs hp, firstScopeHit_none db _ _ _ hall1]
    cases hfe : (listingFilters cfg l).isEmpty with
    | true => rw [if_pos rfl]
    | false => rw [if_neg (by simp [hfe]), firstScopeHit_none db _ _ _ hall2]

theorem C1_two_pass_comps_witness :
    (_fetch_sales_comps { use_sales_comps := true } dbCounty geoNone lstErie).map
        (fun cr => (cr.sales_scope, cr.rows))
      = some (some "county", [rowA]) := by
  obtain ⟨cr, h1, h2, h3⟩ :=
    (C1_two_pass_comps { use_sales_comps := true } dbCounty geoNone lstErie
        rfl (by decide) (by decide)).2.2.2.2.1
      [ScopeKey.zip "16509"] (ScopeKey.county 3) [ScopeKey.region 1]
      (by decide) (by decide) (by decide)
  rw [h1]
  show some (cr.sales_scope, cr.rows) = some (some "county", [rowA])
  rw [h2, h3]
  decide

theorem exceptBind_ok {α β : Type} (a : α) (f : α → Except Unit β) :
    (Except.ok a >>= f) = f a := rfl

/-- Python's round-half-to-even agrees with rounding up when the fractional
part exceeds one half. -/
theorem pyRoundHalfEven_high (q : ℚ) (n : ℤ) (h1 : (n : ℚ) + 1/2 < q)
    (h2 : q < (n : ℚ) + 1) : pyRoundHalfEven q = n + 1 := by
  have hf : ⌊q⌋ = n := by
    rw [Int.floor_eq_iff]
    constructor
    · linarith
    · push_cast
      linarith
  simp only [pyRoundHalfEven, hf]
  rw [if_neg (by push_cast; linarith), if_pos (by push_cast; linarith)]

/-- Round-half-to-even is the identity on integers. -/
theorem pyRoundHalfEven_int (n : ℤ) : pyRoundHalfEven (n : ℚ) = n := by
  simp only [pyRoundHalfEven, Int.floor_intCast]
  rw [if_pos (by norm_num)]

/-- C4: whenever comparable rows carry usable numeric prices and the listing
price is a number, the rendered percentage is
(listing_price - mean) / mean * 100, shown as the absolute value rounded to
zero decimals with direction word "below" exactly when the signed percentage
is negative and "above" otherwise; rows with no usable price at all render
"no comps" (Zillow) / "no data" (Facebook). -/
theorem C4_price_delta (cfg : MySQLConfig) (lp : ℚ) :
    (∀ sr ps, sr.rows ≠ [] → extractRowPrices "sale_price" sr.rows = .ok ps → ps ≠ [] →
       vsZillowParts cfg (some lp) (some sr)
         = .ok ["Vs Zillow: "
             ++ toString (pyRoundHalfEven |(lp - listMean ps) / listMean ps * 100|) ++ "% "
             ++ (if (lp - listMean ps) / listMean ps * 100 < 0 then "below" else "above")
             ++ " average when compared to recently sold Zillow listings"
             ++ (match sr.sales_scope with
                 | some s => " (computed using " ++ s ++ ")"
                 | none => "") ++ "."])
  ∧ (∀ sr, sr.rows ≠ [] → extractRowPrices "sale_price" sr.rows = .ok [] →
       vsZillowParts cfg (some lp) (some sr) = .ok ["Vs Zillow: no comps."])
  ∧ (∀ fr ps, fr.rows ≠ [] → extractRowPrices (fbPriceCol cfg) fr.rows = .ok ps → ps ≠ [] →
       vsFacebookParts cfg (some lp) (some fr)
         = .ok ["Vs Facebook: "
             ++ toString (pyRoundHalfEven |(lp - listMean ps) / listMean ps * 100|) ++ "% "
             ++ (if (lp - listMean ps) / listMean ps * 100 < 0 then "below" else "above")
             ++ " average when compared to similar Facebook Marketplace listings."])
  ∧ (∀ fr, fr.rows ≠ [] → extractRowPrices (fbPriceCol cfg) fr.rows = .ok [] →
       vsFacebookParts cfg (some lp) (some fr) = .ok ["Vs Facebook: no data."]) := by
  refine ⟨?_, ?_, ?_, ?_⟩
  · intro sr ps h1 h2 h3
    have hb : sr.rows.isEmpty = false := by
      cases hr : sr.rows with
      | nil => exact absurd hr h1
      | cons a as => rfl
    have hps : ps.isEmpty = false := by
      cases hq : ps with
      | nil => exact absurd hq h3
      | cons a as => rfl
    simp only [vsZillowParts, hb, Bool.not_false, if_true, h2, exceptBind_ok, hps]
    rfl
  · intro sr h1 h2
    have hb : sr.rows.isEmpty = false := by
      cases hr : sr.rows with
      | nil => exact absurd hr h1
      | cons a as => rfl
    simp only [vsZillowParts, hb, Bool.not_false, if_true, h2, exceptBind_ok]
    rfl
  · intro fr ps h1 h2 h3
    have hb : fr.rows.isEmpty = false := by
      cases hr : fr.rows with
      | nil => exact absurd hr h1
      | cons a as => rfl
    have hps : ps.isEmpty = false := by
      cases hq : ps with
      | nil => exact absurd hq h3
      | cons a as => rfl
    simp only [vsFacebookParts, hb, Bool.not_false, if_true, h2, exceptBind_ok, hps]
    rfl
  · intro fr h1 h2
    have hb : fr.rows.isEmpty = false := by
      cases hr : fr.rows with
      | nil => exact absurd hr h1
      | cons a as => rfl
    simp only [vsFacebookParts, hb, Bool.not_false, if_true, h2, exceptBind_ok]
    rfl

theorem C4_price_delta_witness :
    vsZillowParts { use_sales_comps := true } (some 100000) (some sr0)
      = .ok ["Vs Zillow: 17% below average when compared to recently sold Zillow listings (computed using zip)."] := by
  have h := (C4_price_delta { use_sales_comps := true } 100000).1 sr0 [120000]
    (by decide) (by decide) (by decide)
  rw [h]
  have hpct : ((100000 : ℚ) - listMean [120000]) / listMean [120000] * 100 = -50/3 := by
    norm_num [listMean]
  have habs : |((100000 : ℚ) - listMean [120000]) / listMean [120000] * 100| = 50/3 := by
    rw [hpct]
    rw [abs_of_neg (by norm_num)]
    norm_num
  have hn : pyRoundHalfEven |((100000 : ℚ) - listMean [120000]) / listMean [120000] * 100|
      = 17 := by
    rw [habs]
    exact pyRoundHalfEven_high ((50 : ℚ)/3) 16 (by norm_num) (by norm_num)
  have hneg : ((100000 : ℚ) - listMean [120000]) / listMean [120000] * 100 < 0 := by
    rw [hpct]; norm_num
  rw [hn, if_pos hneg]
  decide

/-- C5 (code bug): the concise-price computation of fetch_comparison (the
float() conversions of raw row prices) sits outside the try/except, so a
sales comps row whose sale_price is the non-numeric string "N/A", paired
with a listing whose price parses, makes fetch_comparison raise a ValueError
to its caller instead of returning None. -/
theorem C5_fetch_comparison_raises :
    fetch_comparison { use_sales_comps := true } dbBadPrice geoNone lstBadPrice ""
      = .error () := by
  decide

theorem fbUpsert_fresh (t : List FbRow) (now : Nat) (wp wu : Bool) (v : FbValues)
    (h : ∀ r ∈ t, r.external_id ≠ v.external_id) :
    fbUpsert t now wp wu v = t ++ [newFbRow now wp v] := by
  have hA : (t.any (fun r => r.external_id = v.external_id)) = false := by
    rw [List.any_eq_false]
    intro r hr
    simp [h r hr]
  unfold fbUpsert
  rw [hA]
  simp

theorem insert_fb_eq (cfg : MySQLConfig) (db : Db) (geo : GeoFun) (t : List FbRow) (now : Nat)
    (l : Listing) (hen : cfg.enabled = true) (hsafe : _safe_table cfg.fb_listings_table = true)
    (hins : cfg.insert_into_fb = true) (hconn : db.connectOk = true) (hok : db.insertOk = true) :
    insert_fb_listing cfg db geo t now l
      = (true, fbUpsert t now db.hasPostedDate db.hasUpdatedAt (fbValuesOf cfg db geo l)) := by
  unfold insert_fb_listing
  rw [hen, hsafe, hins, hconn, hok]
  rfl

/-- C6: the upsert is keyed by the listing's external identifier and
idempotent: with a prior row for the identifier, the update overwrites every
derived field with the new listing's values but preserves the external
identifier and the first-seen timestamp; two upserts with the same
identifier and a changed title leave exactly one row for that identifier,
carrying the new title and the first call's timestamp. -/
theorem C6_upsert_idempotent (cfg : MySQLConfig) (db : Db) (geo : GeoFun) (t : List FbRow)
    (n1 n2 : Nat) (l1 l2 : Listing)
    (hid : l2.id = l1.id)
    (hfresh : ∀ r ∈ t, r.external_id ≠ l1.id)
    (hen : cfg.enabled = true) (hsafe : _safe_table cfg.fb_listings_table = true)
    (hins : cfg.insert_into_fb = true) (hconn : db.connectOk = true) (hok : db.insertOk = true)
    (hposted : db.hasPostedDate = true) :
    (insert_fb_listing cfg db geo t n1 l1).1 = true
  ∧ (insert_fb_listing cfg db geo ((insert_fb_listing cfg db geo t n1 l1).2) n2 l2).1 = true
  ∧ (((insert_fb_listing cfg db geo ((insert_fb_listing cfg db geo t n1 l1).2) n2 l2).2).filter
       (fun r => r.external_id = l1.id)).length = 1
  ∧ (∀ r ∈ (insert_fb_listing cfg db geo ((insert_fb_listing cfg db geo t n1 l1).2) n2 l2).2,
       r.external_id = l1.id →
         r.title = (fbValuesOf cfg db geo l2).title
       ∧ r.description = (fbValuesOf cfg db geo l2).description
       ∧ r.asking_price = (fbValuesOf cfg db geo l2).asking_price
       ∧ r.city = (fbValuesOf cfg db geo l2).city
       ∧ r.state = (fbValuesOf cfg db geo l2).state
       ∧ r.zip = (fbValuesOf cfg db geo l2).zip
       ∧ r.url = (fbValuesOf cfg db geo l2).url
       ∧ r.beds = (fbValuesOf cfg db geo l2).beds
       ∧ r.baths = (fbValuesOf cfg db geo l2).baths
       ∧ r.county_id = (fbValuesOf cfg db geo l2).county_id
       ∧ r.region_id = (fbValuesOf cfg db geo l2).region_id
       ∧ r.posted_date = some n1) := by
  have hv1 : (fbValuesOf cfg db geo l1).external_id = l1.id := rfl
  have hv2 : (fbValuesOf cfg db geo l2).external_id = l1.id := by
    show l2.id = l1.id
    exact hid
  have e1 := insert_fb_eq cfg db geo t n1 l1 hen hsafe hins hconn hok
  have hT1 : (insert_fb_listing cfg db geo t n1 l1).2
      = t ++ [newFbRow n1 db.hasPostedDate (fbValuesOf cfg db geo l1)] := by
    rw [e1]
    exact fbUpsert_fresh t n1 _ _ _ (fun r hr => by rw [hv1]; exact hfresh r hr)
  have e2 := insert_fb_eq cfg db geo ((insert_fb_listing cfg db geo t n1 l1).2) n2 l2
    hen hsafe hins hconn hok
  have hnewid : (newFbRow n1 db.hasPostedDate (fbValuesOf cfg db geo l1)).external_id
      = l1.id := rfl
  have hany : (((insert_fb_listing cfg db geo t n1 l1).2).any
      (fun r => r.external_id = (fbValuesOf cfg db geo l2).external_id)) = true := by
    rw [hT1, List.any_eq_true]
    exact ⟨newFbRow n1 db.hasPostedDate (fbValuesOf cfg db geo l1), by simp,
      by simp [hnewid, hv2]⟩
  have hT2 : (insert_fb_listing cfg db geo ((insert_fb_listing cfg db geo t n1 l1).2) n2 l2).2
      = ((insert_fb_listing cfg db geo t n1 l1).2).map
          (fun r => if r.external_id = (fbValuesOf cfg db geo l2).external_id then
              applyFbUpdate r n2 db.hasUpdatedAt (fbValuesOf cfg db geo l2) else r) := by
    rw [e2]
    unfold fbUpsert
    rw [hany]
    simp
  refine ⟨by rw [e1], by rw [e2], ?_, ?_⟩
  · rw [hT2, hT1]
    rw [List.map_append, List.filter_append]
    have h1 : ((t.map (fun r => if r.external_id = (fbValuesOf cfg db geo l2).external_id then
        applyFbUpdate r n2 db.hasUpdatedAt (fbValuesOf cfg db geo l2) else r)).filter
        (fun r => r.external_id = l1.id)) = [] := by
      rw [List.filter_eq_nil]
      intro a ha
      rw [List.mem_map] at ha
      obtain ⟨r, hr, hra⟩ := ha
      rw [if_neg (by rw [hv2]; exact hfresh r hr)] at hra
      subst hra
      simp [hfresh r hr]
    rw [h1]
    have hid2 : (applyFbUpdate (newFbRow n1 db.hasPostedDate (fbValuesOf cfg db geo l1)) n2
        db.hasUpdatedAt (fbValuesOf cfg db geo l2)).external_id = l1.id := hnewid
    simp [List.filter, hnewid, hv2, hid2]
  · intro r hr hrid
    rw [hT2, hT1, List.map_append] at hr
    rw [List.mem_append] at hr
    rcases hr with hr | hr
    · exfalso
      rw [List.mem_map] at hr
      obtain ⟨r0, hr0, hra⟩ := hr
      rw [if_neg (by rw [hv2]; exact hfresh r0 hr0)] at hra
      subst hra
      exact hfresh r0 hr0 hrid
    · simp only [List.map_cons, List.map_nil, List.mem_singleton] at hr
      rw [if_pos (by rw [hnewid, hv2])] at hr
      subst hr
      refine ⟨rfl, rfl, rfl, rfl, rfl, rfl, rfl, rfl, rfl, rfl, rfl, ?_⟩
      show (if db.hasPostedDate then some n1 else none) = some n1
      rw [hposted]
      rfl

theorem C6_upsert_idempotent_witness :
    (insert_fb_listing {} dbEmpty geoNone [] 5 lstFirst).1 = true
  ∧ (insert_fb_listing {} dbEmpty geoNone
      ((insert_fb_listing {} dbEmpty geoNone [] 5 lstFirst).2) 9 lstSecond).1 = true
  ∧ (((insert_fb_listing {} dbEmpty geoNone
      ((insert_fb_listing {} dbEmpty geoNone [] 5 lstFirst).2) 9 lstSecond).2).filter
        (fun r => r.external_id = lstFirst.id)).length = 1
  ∧ ((insert_fb_listing {} dbEmpty geoNone
      ((insert_fb_listing {} dbEmpty geoNone [] 5 lstFirst).2) 9 lstSecond).2).map
        (fun r => (r.external_id, r.title, r.posted_date))
      = [("FB1", "Second title 3 bed", some 5)] := by
  have h := C6_upsert_idempotent {} dbEmpty geoNone [] 5 9 lstFirst lstSecond rfl
    (by simp) rfl (by decide) rfl rfl rfl rfl
  exact ⟨h.1, h.2.1, h.2.2.1, by decide⟩

theorem safe_of_reMatch (s : String) (h : reMatchIdent s = true) : _safe_table s = true := by
  have hne : s ≠ "" := by
    intro he
    rw [he] at h
    exact absurd h (by decide)
  simp [_safe_table, h, hne]

/-- C7 counterexample: an unsafe COLUMN name does not disable the builtin
comparison: with title_column = "title; DROP TABLE x" (which fails the
allow-list) the feature still runs and returns a result, contradicting "the
corresponding feature is silently disabled — the operation returns its
absent value". -/
theorem C7_counterexample :
    reMatchIdent "title; DROP TABLE x" = false
  ∧ _run_builtin_comparison cfgBadCol dbOneRow lstSofa
      = .ok (some
          { summary := "Similar or related listings from your database:\n  1. title: sofa",
            rows := [[("title", Value.str "sofa")]],
            raw_text := "\x7b'title': 'sofa'\x7d" }) := by
  exact ⟨by decide, by decide⟩

/-- C7 (amended): a table name failing the allow-list disables the feature
(builtin comparison returns its absent value and no query is built; the
lot-rent lookup returns the empty line); a failing COLUMN name does not
disable the feature but is replaced by a safe default ("title"/"price";
lot-rent value column "avg_rent") or its scope is skipped, so every
identifier of a query that is actually issued has passed the allow-list;
"fb_listings; DROP TABLE x" fails the check. -/
theorem C7_identifier_allowlist (cfg : MySQLConfig) (db : Db) (geo : GeoFun) (l : Listing) :
    (∀ tn, cfg.comparison_table = some tn → _safe_table tn = false →
       builtinQueryOf cfg l = none ∧ _run_builtin_comparison cfg db l = .ok none)
  ∧ (∀ q, builtinQueryOf cfg l = some q →
       _safe_table q.table = true ∧ _safe_table q.titleCol = true
         ∧ ∀ pc, q.priceCol = some pc → _safe_table pc = true)
  ∧ (∀ tn, cfg.lot_rent_table = some tn → _safe_table tn = false →
       _get_average_lot_rent cfg db geo l = "")
  ∧ (∀ tn lq, lq ∈ lotQueriesOf cfg (_resolve_location cfg db geo l) tn →
       _safe_table lq.valCol = true ∧ _safe_table lq.whereCol = true)
  ∧ _safe_table "fb_listings; DROP TABLE x" = false := by
  have hPriceMap : ∀ pc, (cfg.price_column.map
      (fun pc => if reMatchIdent pc = true then pc else "price")) = some pc →
      _safe_table pc = true := by
    intro pc h
    cases hp0 : cfg.price_column with
    | none => rw [hp0] at h; exact absurd h (by simp)
    | some p0 =>
      rw [hp0] at h
      simp only [Option.map_some'] at h
      injection h with h1
      rw [← h1]
      split
      · rename_i hh; exact safe_of_reMatch _ hh
      · decide
  refine ⟨?_, ?_, ?_, ?_, by decide⟩
  · intro tn htn hsafe
    have hq : builtinQueryOf cfg l = none := by
      unfold builtinQueryOf
      rw [htn]
      by_cases h0 : tn = ""
      · simp [h0]
      · have hrm : reMatchIdent tn = false := by
          by_contra hc
          rw [Bool.not_eq_false] at hc
          rw [safe_of_reMatch tn hc] at hsafe
          exact absurd hsafe (by decide)
        simp [h0, hrm]
    refine ⟨hq, ?_⟩
    unfold _run_builtin_comparison
    rw [hq]
  · intro q
    unfold builtinQueryOf
    split
    · intro hq; exact absurd hq (by simp)
    · rename_i tbl heq
      split
      · intro hq; exact absurd hq (by simp)
      · rename_i hcond
        simp only [Bool.or_eq_true, decide_eq_true_eq, Bool.not_eq_eq_eq_not, Bool.not_true,
          not_or, Bool.not_eq_false] at hcond
        have htblsafe : _safe_table tbl = true := by
          simp [_safe_table, hcond.1, hcond.2]
        have htcol : _safe_table (if reMatchIdent cfg.title_column = true then cfg.title_column
            else "title") = true := by
          split
          · rename_i hh; exact safe_of_reMatch _ hh
          · decide
        rcases hm : (Option.map (fun pc => if reMatchIdent pc = true then pc else "price")
            cfg.price_column) with _ | pc0 <;>
          rcases hp : _parse_price l.price with _ | pv0 <;>
            intro hq <;>
            injection hq with h1 <;>
            subst h1 <;>
            exact ⟨htblsafe, htcol, fun pc1 hpc1 => hPriceMap pc1 (by rw [hm]; exact hpc1)⟩
  · intro tn htn hsafe
    simp [_get_average_lot_rent, htn, hsafe]
  · intro tn lq hlq
    have hval : ∀ s : String, _safe_table (if _safe_table s = true then s else "avg_rent")
        = true := by
      intro s
      split
      · rename_i hh; exact hh
      · decide
    unfold lotQueriesOf at hlq
    rw [List.mem_append, List.mem_append] at hlq
    rcases hlq with (h | h) | h
    · rcases hz : (_resolve_location cfg db geo l).zip with _ | z
      all_goals rw [hz] at h
      · exact absurd h (List.not_mem_nil lq)
      · cases hcol : _safe_table cfg.lot_rent_zip_column
        all_goals rw [hcol] at h
        · exact absurd h (List.not_mem_nil lq)
        · cases h with
          | head => exact ⟨hval _, hcol⟩
          | tail _ h2 => exact absurd h2 (List.not_mem_nil lq)
    · rcases hc : (_resolve_location cfg db geo l).county_id with _ | c
      all_goals rw [hc] at h
      · exact absurd h (List.not_mem_nil lq)
      · cases hcol : _safe_table cfg.lot_rent_county_column
        all_goals rw [hcol] at h
        · exact absurd h (List.not_mem_nil lq)
        · cases h with
          | head => exact ⟨hval _, hcol⟩
          | tail _ h2 => exact absurd h2 (List.not_mem_nil lq)
    · rcases hg : (_resolve_location cfg db geo l).region_id with _ | g
      all_goals rw [hg] at h
      · exact absurd h (List.not_mem_nil lq)
      · cases hcol : _safe_table cfg.lot_rent_region_column
        all_goals rw [hcol] at h
        · exact absurd h (List.not_mem_nil lq)
        · cases h with
          | head => exact ⟨hval _, hcol⟩
          | tail _ h2 => exact absurd h2 (List.not_mem_nil lq)

theorem C7_identifier_allowlist_witness :
    builtinQueryOf cfgBadTable lstSofa = none
  ∧ _run_builtin_comparison cfgBadTable dbOneRow lstSofa = .ok none :=
  (C7_identifier_allowlist cfgBadTable dbOneRow geoNone lstSofa).1
    "fb_listings; DROP TABLE x" rfl (by decide)

/-- C10: when no comparison source contributes a summary part (no custom
query, no comparison table, and the sales-comps search disabled or blocked
by an unsafe table name), fetch_comparison returns None — even though the
average-lot-rent line may already have been computed, it is never delivered
without at least one comparison summary. -/
theorem C10_no_summary_returns_none (cfg : MySQLConfig) (db : Db) (geo : GeoFun) (l : Listing)
    (item : String)
    (hq : optStrTruthy cfg.comparison_query = false)
    (ht : optStrTruthy cfg.comparison_table = false)
    (hs : cfg.use_sales_comps = false ∨ _safe_table cfg.sales_table = false
      ∨ _safe_table cfg.properties_table = false) :
    fetch_comparison cfg db geo l item = .ok none := by
  have hsales : _fetch_sales_comps cfg db geo l = none := by
    unfold _fetch_sales_comps
    rcases hs with h | h | h <;> simp [h]
  cases he : cfg.enabled with
  | false => simp [fetch_comparison, he]
  | true =>
    cases hco : db.connectOk with
    | false => cases hu : cfg.use_sales_comps <;>
        simp [fetch_comparison, he, hco, hq, ht, hu]
    | true =>
      cases hu : cfg.use_sales_comps with
      | false => simp [fetch_comparison, gatherParts, he, hco, hq, ht, hu]
      | true =>
        simp only [fetch_comparison, gatherParts, he, hco, hq, ht, hu, hsales]
        rfl

theorem C10_no_summary_returns_none_witness :
    _get_average_lot_rent cfgLot dbLot geoNone lstCouch = "Average lot rent (zip 16428): $400"
  ∧ fetch_comparison cfgLot dbLot geoNone lstCouch "" = .ok none := by
  constructor
  · show "Average lot rent (zip 16428): $" ++ pyMoneyInt (pyRoundHalfEven 400)
      = "Average lot rent (zip 16428): $400"
    have h400 : pyRoundHalfEven ((400 : ℚ)) = 400 := by
      have hc : ((400 : ℤ) : ℚ) = (400 : ℚ) := by norm_num
      rw [← hc, pyRoundHalfEven_int]
    rw [h400]
    decide
  · exact C10_no_summary_returns_none cfgLot dbLot geoNone lstCouch "" rfl rfl
      (Or.inr (Or.inl (by decide)))

end AMM
